import Mathlib

/-!
Verification development for the wagtail repository fragment:
environment configuration (`src/mysite/mysite/settings/dev.py`) and the
bulk-publish admin test module
(`src/wagtail/admin/tests/bulk_actions/test_bulk_publish.py`).

The bulk publish admin view itself is not part of the supplied sources
(only its tests are), so the view is modelled from the spec
(`spec.md`): a page tree whose pages may be live, a bulk publish action
that marks the selected pages (and optionally their descendants) as
live, signal dispatch, and `before_publish_page` / `after_publish_page`
hook invocations around the status change.
-/

namespace Wagtail

/-- Modelled from the spec: a page of the hierarchical content model
("Page tree: hierarchical content model (parent/child pages)").
`ancestors` lists the ids of all strict ancestors of the page, and
`cls` is the name of the page's specific class (e.g. `SimplePage`).
`live` is the publicly-live flag. -/
structure PageRecord where
  id : Nat
  ancestors : List Nat
  cls : String
  live : Bool
deriving DecidableEq, Repr

/-- The HTTP method of a request to the bulk publish view. -/
inductive Method where
  | get
  | post
deriving DecidableEq, Repr

/-- Modelled from the spec: a request to the bulk publish view.
`parentId` is the URL argument (the parent page whose explorer the
response redirects to), `ids` are the `id` query parameters selecting
the pages to publish, and `includeDescendants` is the posted form
checkbox. -/
structure ViewRequest where
  parentId : Nat
  ids : List Nat
  includeDescendants : Bool
  method : Method
deriving DecidableEq, Repr

/-- A URL the view may redirect to. -/
inductive Url where
  | explore (pid : Nat)
  | adminHome
deriving DecidableEq, Repr

/-- Modelled from the spec: the response of the bulk publish view —
a redirect (HTTP 302), a not-found error (HTTP 404), or the rendered
confirmation page (HTTP 200) with the given template, whose form shows
the `include_descendants` checkbox iff the flag is set. -/
inductive Response where
  | redirect (target : Url)
  | notFound
  | confirmPage (template : String) (showDescendantsCheckbox : Bool)
deriving DecidableEq, Repr

/-- The HTTP status code of a response. -/
def statusCode : Response → Nat
  | .redirect _ => 302
  | .notFound => 404
  | .confirmPage _ _ => 200

/-- Whether the response is the rendered confirmation page. -/
def isConfirmPage : Response → Bool
  | .confirmPage _ _ => true
  | _ => false

/-- The template of the publish confirmation page, as asserted by the
tests. -/
def confirmTemplate : String := "wagtailadmin/pages/bulk_actions/confirm_bulk_publish.html"

/-- Modelled from the spec: a `page_published` signal dispatch, with
`sender` the page's specific class and `instance` the published page
(recorded by its id and its specific class). -/
structure SignalEvent where
  sender : String
  instanceId : Nat
  instanceCls : String
deriving DecidableEq, Repr

/-- Modelled from the spec: the observable events of publishing one
page — the `before_publish_page` hook call (with the request, the page
and its status at that moment), the status change itself, and the
`after_publish_page` hook call. -/
inductive PubEvent where
  | beforeHook (req : ViewRequest) (pageId : Nat) (status : String)
  | setLive (pageId : Nat)
  | afterHook (req : ViewRequest) (pageId : Nat) (status : String)
deriving DecidableEq, Repr

/-- The status string of a page, as asserted by the tests: "live" when
the live flag is set, "draft" otherwise. -/
def statusString (p : PageRecord) : String :=
  if p.live then "live" else "draft"

/-- Whether a page with the given id exists in the database. -/
def pageExists (db : List PageRecord) (pid : Nat) : Bool :=
  db.any (fun p => p.id == pid)

/-- Whether `p` is a strict descendant of one of the selected ids
(an ancestor/descendant query of the tree model). -/
def isDescendantOfAny (ids : List Nat) (p : PageRecord) : Bool :=
  ids.any (fun s => p.ancestors.contains s)

/-- Modelled from the spec: whether the bulk publish action publishes
page `p` — it is selected, or descendants are included and `p` is a
descendant of a selected page. -/
def shouldPublish (ids : List Nat) (incl : Bool) (p : PageRecord) : Bool :=
  ids.contains p.id || (incl && isDescendantOfAny ids p)

/-- Mark a page as publicly live. -/
def setPageLive (p : PageRecord) : PageRecord :=
  { p with live := true }

/-- Publish `p` when the action selects it, leave it unchanged
otherwise. -/
def publishMark (ids : List Nat) (incl : Bool) (p : PageRecord) : PageRecord :=
  if shouldPublish ids incl p then setPageLive p else p

/-- The `page_published` signal dispatched for a published page. -/
def pageSignal (p : PageRecord) : SignalEvent :=
  ⟨p.cls, p.id, p.cls⟩

/-- Modelled from the spec: the event trace of publishing one page —
the `before_publish_page` hook fires with the page still in its
pre-change status, then the live flag is set, then the
`after_publish_page` hook fires with the page in its post-change
status. -/
def publishTrace (req : ViewRequest) (p : PageRecord) : List PubEvent :=
  [ .beforeHook req p.id (statusString p),
    .setLive p.id,
    .afterHook req p.id (statusString (setPageLive p)) ]

/-- The full result of one request to the bulk publish view: the HTTP
response, the database afterwards, the signals dispatched and the
hook/status events in order. -/
structure ViewResult where
  response : Response
  db : List PageRecord
  signals : List SignalEvent
  events : List PubEvent
deriving Repr

/-- Modelled from the spec: the bulk publish admin view ("Bulk publish:
administrative action that marks one or more selected pages (and
optionally their descendants) as publicly live").  A non-existent
parent page id yields 404; a user without publish permission is
redirected away; a GET renders the confirmation page, showing the
`include_descendants` checkbox iff a selected page has descendants;
a POST publishes the selected pages (and their descendants when the
checkbox was submitted), dispatches one `page_published` signal per
published page, runs the publish hooks around each status change, and
redirects to the explorer page of the parent. -/
def bulkPublishView (db : List PageRecord) (canPublish : Bool) (req : ViewRequest) : ViewResult :=
  if pageExists db req.parentId then
    if canPublish then
      match req.method with
      | .get =>
          ⟨.confirmPage confirmTemplate (db.any (isDescendantOfAny req.ids)), db, [], []⟩
      | .post =>
          let toPublish := db.filter (shouldPublish req.ids req.includeDescendants)
          ⟨.redirect (.explore req.parentId),
           db.map (publishMark req.ids req.includeDescendants),
           toPublish.map pageSignal,
           toPublish.flatMap (publishTrace req)⟩
    else
      ⟨.redirect .adminHome, db, [], []⟩
  else
    ⟨.notFound, db, [], []⟩

end Wagtail

namespace TestModule

/-!
Embedding of the Python attribute-access semantics needed by the test
module `src/wagtail/admin/tests/bulk_actions/test_bulk_publish.py`.
Six test methods of `TestBulkPublish` read `self.self.url` at the line
that is meant to issue the HTTP request.
-/

/-- A Python value: an object with named attributes, a string, or
None.  Only attribute structure matters here. -/
inductive PyVal where
  | obj (attrs : List (String × PyVal))
  | strV (s : String)
  | noneV

/-- The expressions occurring at the request lines of the test
methods: the name `self` and attribute access. -/
inductive PyExpr where
  | selfRef
  | attr (e : PyExpr) (name : String)

/-- A Python runtime error; attribute lookup failure raises
`AttributeError` naming the missing attribute. -/
inductive PyError where
  | attributeError (name : String)
deriving DecidableEq, Repr

/-- Look up a named attribute in an attribute list. -/
def lookupAttr (attrs : List (String × PyVal)) (name : String) : Option PyVal :=
  match attrs with
  | [] => none
  | (k, v) :: rest => if k = name then some v else lookupAttr rest name

/-- Python attribute access: objects yield the attribute when defined
and raise `AttributeError` otherwise; non-objects here have no
attributes. -/
def getAttr : PyVal → String → Except PyError PyVal
  | .obj attrs, name =>
      match lookupAttr attrs name with
      | some v => .ok v
      | none => .error (.attributeError name)
  | _, name => .error (.attributeError name)

/-- Evaluate an expression against the test case instance bound to
`self`. -/
def evalExpr (selfObj : PyVal) : PyExpr → Except PyError PyVal
  | .selfRef => .ok selfObj
  | .attr e name =>
      match evalExpr selfObj e with
      | .ok v => getAttr v name
      | .error err => .error err

/-- A statement of a test method body, abstracted to what matters for
the claim: `setup` statements that touch only defined attributes, and
the statement issuing the HTTP request after evaluating its URL
expression. -/
inductive TStmt where
  | setup
  | request (m : Wagtail.Method) (urlExpr : PyExpr)

/-- Run a test method body: statements execute in order; an error
while evaluating a request URL aborts the method before that request
(and all later ones) is issued.  Returns the issued requests and the
error, when one occurred. -/
def runBody (selfObj : PyVal) : List TStmt → List (Wagtail.Method × PyVal) × Option PyError
  | [] => ([], none)
  | .setup :: rest => runBody selfObj rest
  | .request m e :: rest =>
      match evalExpr selfObj e with
      | .error err => ([], some err)
      | .ok u =>
          let (rs, err) := runBody selfObj rest
          ((m, u) :: rs, err)

/-- The expression `self.self.url` as written at the request lines of
the six test methods. -/
def selfSelfUrl : PyExpr := .attr (.attr .selfRef "self") "url"

/-- Body of `TestBulkPublish.test_publish_view`:
`response = self.client.get(self.self.url)`. -/
def body_test_publish_view : List TStmt :=
  [ .request .get selfSelfUrl ]

/-- Body of `TestBulkPublish.test_publish_view_bad_permissions`: three
statements adjusting the user's permissions, then
`response = self.client.get(self.self.url)`. -/
def body_test_publish_view_bad_permissions : List TStmt :=
  [ .setup, .setup, .setup, .request .get selfSelfUrl ]

/-- Body of `TestBulkPublish.test_publish_view_post`: two statements
connecting the mock signal handler, then
`response = self.client.post(self.self.url)`. -/
def body_test_publish_view_post : List TStmt :=
  [ .setup, .setup, .request .post selfSelfUrl ]

/-- Body of `TestBulkPublish.test_after_publish_page`: the hook
registration, then `response = self.client.post(self.self.url)`. -/
def body_test_after_publish_page : List TStmt :=
  [ .setup, .request .post selfSelfUrl ]

/-- Body of `TestBulkPublish.test_before_publish_page`: the hook
registration, then `response = self.client.post(self.self.url)`. -/
def body_test_before_publish_page : List TStmt :=
  [ .setup, .request .post selfSelfUrl ]

/-- Body of `TestBulkPublish.test_publish_descendants_view`:
`response = self.client.get(self.self.url)`. -/
def body_test_publish_descendants_view : List TStmt :=
  [ .request .get selfSelfUrl ]

/-- The attribute names `TestBulkPublish.setUp` defines on the
instance: `root_page`, `child_pages`, `pages_to_be_published`,
`pages_not_to_be_published`, `url`, `redirect_url`, `user`. -/
def setUpAttrNames : List String :=
  ["root_page", "child_pages", "pages_to_be_published",
   "pages_not_to_be_published", "url", "redirect_url", "user"]

end TestModule

namespace DevSettings

/-!
Embedding of `src/mysite/mysite/settings/dev.py`: the settings values
it assigns and the guarded `from .local import *` at the end.
-/

/-- The settings names `dev.py` assigns. -/
structure Settings where
  DEBUG : Bool
  SECRET_KEY : String
  ALLOWED_HOSTS : List String
  EMAIL_BACKEND : String
  CSRF_TRUSTED_ORIGINS : List String
deriving DecidableEq, Repr

/-- What importing the optional `.local` settings module does: the
module may be absent (the import raises ImportError), raise
ImportError itself, raise some other exception, or load and apply
overrides to the settings. -/
inductive LocalModule where
  | absent
  | raisesImportError
  | raisesOther (e : String)
  | definesOverrides (f : Settings → Settings)

/-- The assignments of `dev.py`, applied over the base settings
imported by `from .base import *`. -/
def applyDevAssignments (base : Settings) : Settings :=
  { base with
    DEBUG := true,
    SECRET_KEY := "django-insecure-&%))u!78ouln2w+t$^14r55oa88k-wm0)7k)i!-0$+d5)40*k9",
    ALLOWED_HOSTS := ["8000", "localhost"],
    EMAIL_BACKEND := "django.core.mail.backends.console.EmailBackend",
    CSRF_TRUSTED_ORIGINS := ["https://8000-sdivyanshu90-wagtail-zz7jqlv1uio.ws-us89b.gitpod.io"] }

/-- Loading the dev settings module: apply the `dev.py` assignments,
then `try: from .local import * except ImportError: pass` — a missing
module or an ImportError is swallowed, any other exception propagates,
and a successful import applies the local overrides. -/
def loadDevSettings (base : Settings) (localMod : LocalModule) : Except String Settings :=
  let s := applyDevAssignments base
  match localMod with
  | .absent => .ok s
  | .raisesImportError => .ok s
  | .raisesOther e => .error e
  | .definesOverrides f => .ok (f s)

end DevSettings

namespace Wagtail

/-- `publishMark` never changes a page's id. -/
lemma publishMark_id (ids : List Nat) (incl : Bool) (p : PageRecord) :
    (publishMark ids incl p).id = p.id := by
  unfold publishMark setPageLive
  split <;> rfl

/-- A page selected by its id satisfies `shouldPublish`. -/
lemma shouldPublish_of_selected (ids : List Nat) (incl : Bool) (p : PageRecord)
    (hsel : ids.contains p.id = true) :
    shouldPublish ids incl p = true := by
  unfold shouldPublish
  rw [hsel]
  rfl

/-- A descendant of a selected page satisfies `shouldPublish` when
descendants are included. -/
lemma shouldPublish_of_descendant (ids : List Nat) (p : PageRecord)
    (hdesc : isDescendantOfAny ids p = true) :
    shouldPublish ids true p = true := by
  unfold shouldPublish
  rw [hdesc]
  simp

/-- A page neither selected nor swept in as a descendant does not
satisfy `shouldPublish`. -/
lemma shouldPublish_of_excluded (ids : List Nat) (incl : Bool) (p : PageRecord)
    (hsel : ids.contains p.id = false)
    (hdesc : incl = false ∨ isDescendantOfAny ids p = false) :
    shouldPublish ids incl p = false := by
  unfold shouldPublish
  rw [hsel]
  rcases hdesc with h | h
  · rw [h]
    rfl
  · rw [h]
    simp

/-- A page satisfying `shouldPublish` is published by `publishMark`. -/
lemma publishMark_of_should (ids : List Nat) (incl : Bool) (p : PageRecord)
    (h : shouldPublish ids incl p = true) :
    publishMark ids incl p = setPageLive p := by
  unfold publishMark
  rw [h]
  simp

/-- A page not satisfying `shouldPublish` is left unchanged by
`publishMark`. -/
lemma publishMark_of_not_should (ids : List Nat) (incl : Bool) (p : PageRecord)
    (h : shouldPublish ids incl p = false) :
    publishMark ids incl p = p := by
  unfold publishMark
  rw [h]
  simp

/-- Filtering a list whose keys are distinct down to one present key
yields exactly the one matching element, provided it passes the other
filter as well. -/
lemma filter_key_singleton {α : Type} (key : α → Nat) (g : α → Bool) :
    ∀ (l : List α) (p : α), (l.map key).Nodup → p ∈ l → g p = true →
      l.filter (fun a => decide (key a = key p) && g a) = [p]
  | [], p, _, hp, _ => absurd hp (List.not_mem_nil p)
  | x :: xs, p, hnodup, hp, hg => by
      have hnd := List.nodup_cons.mp hnodup
      rcases List.mem_cons.mp hp with rfl | hmem
      · have hx : (decide (key p = key p) && g p) = true := by
          rw [hg]
          simp
        have hrest : xs.filter (fun a => decide (key a = key p) && g a) = [] := by
          apply List.filter_eq_nil_iff.mpr
          intro a ha
          have hne : key a ≠ key p := by
            intro he
            exact hnd.1 (by rw [← he]; exact List.mem_map_of_mem key ha)
          simp [hne]
        rw [List.filter_cons, if_pos hx, hrest]
      · have hxne : key x ≠ key p := by
          intro he
          exact hnd.1 (by rw [he]; exact List.mem_map_of_mem key hmem)
        have hx : (decide (key x = key p) && g x) = false := by
          simp [hxne]
        have ih := filter_key_singleton key g xs p hnd.2 hmem hg
        rw [List.filter_cons, if_neg (by simp [hx]), ih]

/-- The element-wise image of a member of a list is an infix of the
list's `flatMap`. -/
lemma sublist_flatMap_of_mem {α β : Type} (f : α → List β) :
    ∀ (l : List α) (a : α), a ∈ l → (f a).Sublist (l.flatMap f)
  | [], a, ha => absurd ha (List.not_mem_nil a)
  | x :: xs, a, ha => by
      rcases List.mem_cons.mp ha with rfl | hmem
      · rw [List.flatMap_cons]
        exact List.sublist_append_left (f a) (xs.flatMap f)
      · have ih := sublist_flatMap_of_mem f xs a hmem
        rw [List.flatMap_cons]
        exact ih.trans (List.sublist_append_right (f x) (xs.flatMap f))

/-- The bulk publish view on a POST for an existing parent page by a
user with publish permission: redirect to the parent's explorer,
publish marks applied to the database, one signal per published page,
and the hook/status trace of each published page in order. -/
lemma bulkPublishView_post_eq (db : List PageRecord) (req : ViewRequest)
    (hparent : pageExists db req.parentId = true)
    (hmethod : req.method = Method.post) :
    bulkPublishView db true req =
      ⟨.redirect (.explore req.parentId),
       db.map (publishMark req.ids req.includeDescendants),
       (db.filter (shouldPublish req.ids req.includeDescendants)).map pageSignal,
       (db.filter (shouldPublish req.ids req.includeDescendants)).flatMap (publishTrace req)⟩ := by
  unfold bulkPublishView
  rw [hmethod]
  simp [hparent]

/-- Filtering after mapping is mapping after filtering the composed
predicate. -/
lemma filter_map_comm {α β : Type} (f : α → β) (q : β → Bool) :
    ∀ (l : List α), (l.map f).filter q = (l.filter (fun a => q (f a))).map f
  | [] => rfl
  | x :: xs => by
      by_cases h : q (f x) = true
      · simp [List.filter_cons, h, filter_map_comm f q xs]
      · simp only [Bool.not_eq_true] at h
        simp [List.filter_cons, h, filter_map_comm f q xs]

end Wagtail

/-!
Concrete example data, mirroring the fixtures of the test module:
a root page (id 2, already live), four draft child pages (ids 3-6),
and a draft grandchild page (id 7, child of page 3).
-/

/-- Example database: root page 2 with children 3, 4, 5, 6 and a
grandchild 7 under page 3. -/
def exDb : List Wagtail.PageRecord :=
  [ ⟨2, [], "Page", true⟩,
    ⟨3, [2], "SimplePage", false⟩,
    ⟨4, [2], "SimplePage", false⟩,
    ⟨5, [2], "SimplePage", false⟩,
    ⟨6, [2], "SimplePage", false⟩,
    ⟨7, [2, 3], "SimplePage", false⟩ ]

/-- Example POST request selecting page 3, without descendants. -/
def exReqPost : Wagtail.ViewRequest := ⟨2, [3], false, .post⟩

/-- Example POST request selecting page 3, with descendants included. -/
def exReqPostIncl : Wagtail.ViewRequest := ⟨2, [3], true, .post⟩

/-- Example GET request selecting page 3. -/
def exReqGet : Wagtail.ViewRequest := ⟨2, [3], false, .get⟩

/-- Example request with a parent page id that exists nowhere. -/
def exReqBad : Wagtail.ViewRequest := ⟨12345, [3], false, .get⟩

/-- The selected example child page. -/
def exPage3 : Wagtail.PageRecord := ⟨3, [2], "SimplePage", false⟩

/-- An unselected example sibling page. -/
def exPage6 : Wagtail.PageRecord := ⟨6, [2], "SimplePage", false⟩

/-- The example grandchild page, a descendant of page 3. -/
def exPage7 : Wagtail.PageRecord := ⟨7, [2, 3], "SimplePage", false⟩

/-- C1: posting to the bulk publish view (existing parent page, user
with publish permission) marks every selected page as live in the
database and responds with a redirect to the explorer page of the
parent page. -/
theorem C1_post_publishes_selected_and_redirects
    (db : List Wagtail.PageRecord) (req : Wagtail.ViewRequest)
    (hparent : Wagtail.pageExists db req.parentId = true)
    (hmethod : req.method = Wagtail.Method.post) :
    (Wagtail.bulkPublishView db true req).response
      = Wagtail.Response.redirect (Wagtail.Url.explore req.parentId)
    ∧ ∀ p ∈ db, req.ids.contains p.id = true →
        Wagtail.setPageLive p ∈ (Wagtail.bulkPublishView db true req).db := by
  rw [Wagtail.bulkPublishView_post_eq db req hparent hmethod]
  refine ⟨rfl, ?_⟩
  intro p hp hsel
  have hpub := Wagtail.publishMark_of_should req.ids req.includeDescendants p
    (Wagtail.shouldPublish_of_selected req.ids req.includeDescendants p hsel)
  exact hpub ▸ List.mem_map_of_mem _ hp

/-- Witness for C1 on the example data: posting with page 3 selected
redirects to the explorer of page 2 and page 3 is live afterwards. -/
theorem C1_witness :
    (Wagtail.bulkPublishView exDb true exReqPost).response
      = Wagtail.Response.redirect (Wagtail.Url.explore 2)
    ∧ Wagtail.setPageLive exPage3 ∈ (Wagtail.bulkPublishView exDb true exReqPost).db :=
  ⟨(C1_post_publishes_selected_and_redirects exDb exReqPost (by decide) rfl).1,
   (C1_post_publishes_selected_and_redirects exDb exReqPost (by decide) rfl).2
     exPage3 (by decide) (by decide)⟩

/-- C2: posting with `include_descendants` checked publishes, besides
every selected page, every descendant of a selected page. -/
theorem C2_post_with_descendants_publishes_descendants
    (db : List Wagtail.PageRecord) (req : Wagtail.ViewRequest)
    (hparent : Wagtail.pageExists db req.parentId = true)
    (hmethod : req.method = Wagtail.Method.post)
    (hincl : req.includeDescendants = true) :
    ∀ p ∈ db,
      (req.ids.contains p.id = true ∨ Wagtail.isDescendantOfAny req.ids p = true) →
      Wagtail.setPageLive p ∈ (Wagtail.bulkPublishView db true req).db := by
  rw [Wagtail.bulkPublishView_post_eq db req hparent hmethod]
  intro p hp hsel
  have hshould : Wagtail.shouldPublish req.ids req.includeDescendants p = true := by
    rcases hsel with h | h
    · exact Wagtail.shouldPublish_of_selected req.ids req.includeDescendants p h
    · rw [hincl]
      exact Wagtail.shouldPublish_of_descendant req.ids p h
  have hpub := Wagtail.publishMark_of_should req.ids req.includeDescendants p hshould
  exact hpub ▸ List.mem_map_of_mem _ hp

/-- Witness for C2 on the example data: with descendants included,
the grandchild page 7 (a descendant of the selected page 3) is live
afterwards. -/
theorem C2_witness :
    Wagtail.setPageLive exPage7 ∈ (Wagtail.bulkPublishView exDb true exReqPostIncl).db :=
  C2_post_with_descendants_publishes_descendants exDb exReqPostIncl
    (by decide) rfl rfl exPage7 (by decide) (Or.inr (by decide))

/-- C3: the POST changes only the pages `shouldPublish` selects — a
page that is not among the selected ids and is not swept in as a
descendant (either because `include_descendants` was not submitted or
because it descends from no selected page) is carried over unchanged,
so a page that was not live stays not live. -/
theorem C3_post_leaves_excluded_pages_unchanged
    (db : List Wagtail.PageRecord) (req : Wagtail.ViewRequest)
    (hnodup : (db.map Wagtail.PageRecord.id).Nodup)
    (hparent : Wagtail.pageExists db req.parentId = true)
    (hmethod : req.method = Wagtail.Method.post) :
    ∀ p ∈ db, req.ids.contains p.id = false →
      (req.includeDescendants = false ∨ Wagtail.isDescendantOfAny req.ids p = false) →
      ∀ q ∈ (Wagtail.bulkPublishView db true req).db, q.id = p.id → q = p := by
  intro p hp hsel hdesc q hq hid
  rw [Wagtail.bulkPublishView_post_eq db req hparent hmethod] at hq
  obtain ⟨p₀, hp₀, hq₀⟩ := List.mem_map.mp hq
  have hid₀ : p₀.id = p.id := by
    rw [← hq₀, Wagtail.publishMark_id] at hid
    exact hid
  have hp₀p : p₀ = p := List.inj_on_of_nodup_map hnodup hp₀ hp hid₀
  subst hp₀p
  rw [← hq₀]
  exact Wagtail.publishMark_of_not_should _ _ _
    (Wagtail.shouldPublish_of_excluded _ _ _ hsel hdesc)

/-- Witness for C3 on the example data: page 6 was not selected and
`include_descendants` was off, and the record with id 6 after the POST
is exactly the unchanged draft page 6. -/
theorem C3_witness :
    exPage6 ∈ (Wagtail.bulkPublishView exDb true exReqPost).db ∧ exPage6 = exPage6 :=
  ⟨by decide,
   C3_post_leaves_excluded_pages_unchanged exDb exReqPost (by decide) (by decide) rfl
     exPage6 (by decide) (by decide) (Or.inl rfl)
     exPage6 (by decide) rfl⟩

/-- C4: for every page published by the bulk publish POST, exactly one
`page_published` signal is dispatched for that page (the filter of the
dispatched signals on the page's id is the one-element list), and its
`sender` and the class of its `instance` are the page's specific
class. -/
theorem C4_signal_dispatched_once_per_published_page
    (db : List Wagtail.PageRecord) (req : Wagtail.ViewRequest)
    (hnodup : (db.map Wagtail.PageRecord.id).Nodup)
    (hparent : Wagtail.pageExists db req.parentId = true)
    (hmethod : req.method = Wagtail.Method.post) :
    ∀ p ∈ db, Wagtail.shouldPublish req.ids req.includeDescendants p = true →
      (Wagtail.bulkPublishView db true req).signals.filter
          (fun s => decide (s.instanceId = p.id)) = [Wagtail.pageSignal p]
      ∧ (Wagtail.pageSignal p).sender = p.cls
      ∧ (Wagtail.pageSignal p).instanceCls = p.cls := by
  intro p hp hshould
  rw [Wagtail.bulkPublishView_post_eq db req hparent hmethod]
  refine ⟨?_, rfl, rfl⟩
  show ((db.filter (Wagtail.shouldPublish req.ids req.includeDescendants)).map
      Wagtail.pageSignal).filter (fun s => decide (s.instanceId = p.id))
    = [Wagtail.pageSignal p]
  rw [Wagtail.filter_map_comm]
  simp only [Wagtail.pageSignal]
  rw [List.filter_filter,
    Wagtail.filter_key_singleton Wagtail.PageRecord.id
      (Wagtail.shouldPublish req.ids req.includeDescendants) db p hnodup hp hshould]
  rfl

/-- Witness for C4 on the example data: one signal is dispatched for
the published page 3, with sender and instance class `SimplePage`. -/
theorem C4_witness :
    (Wagtail.bulkPublishView exDb true exReqPost).signals.filter
        (fun s => decide (s.instanceId = exPage3.id)) = [Wagtail.pageSignal exPage3]
    ∧ (Wagtail.pageSignal exPage3).sender = exPage3.cls
    ∧ (Wagtail.pageSignal exPage3).instanceCls = exPage3.cls :=
  C4_signal_dispatched_once_per_published_page exDb exReqPost
    (by decide) (by decide) rfl exPage3 (by decide) (by decide)

/-- C5: for every draft page the POST publishes, the event trace
contains, in order, the `before_publish_page` hook invocation carrying
the request and the page at status "draft", then the status change,
then the `after_publish_page` hook invocation carrying the same
request and the page at status "live". -/
theorem C5_hooks_bracket_status_change
    (db : List Wagtail.PageRecord) (req : Wagtail.ViewRequest)
    (hparent : Wagtail.pageExists db req.parentId = true)
    (hmethod : req.method = Wagtail.Method.post) :
    ∀ p ∈ db, Wagtail.shouldPublish req.ids req.includeDescendants p = true →
      p.live = false →
      List.Sublist
        [ Wagtail.PubEvent.beforeHook req p.id "draft",
          Wagtail.PubEvent.setLive p.id,
          Wagtail.PubEvent.afterHook req p.id "live" ]
        (Wagtail.bulkPublishView db true req).events := by
  intro p hp hshould hlive
  rw [Wagtail.bulkPublishView_post_eq db req hparent hmethod]
  have hmem : p ∈ db.filter (Wagtail.shouldPublish req.ids req.includeDescendants) :=
    List.mem_filter.mpr ⟨hp, hshould⟩
  have htrace : Wagtail.publishTrace req p =
      [ Wagtail.PubEvent.beforeHook req p.id "draft",
        Wagtail.PubEvent.setLive p.id,
        Wagtail.PubEvent.afterHook req p.id "live" ] := by
    simp [Wagtail.publishTrace, Wagtail.statusString, Wagtail.setPageLive, hlive]
  have hsub := Wagtail.sublist_flatMap_of_mem (Wagtail.publishTrace req)
    (db.filter (Wagtail.shouldPublish req.ids req.includeDescendants)) p hmem
  rw [htrace] at hsub
  exact hsub

/-- Witness for C5 on the example data: the trace of the POST
publishing the draft page 3 contains before-hook at "draft", the
status change, and after-hook at "live", in that order. -/
theorem C5_witness :
    List.Sublist
      [ Wagtail.PubEvent.beforeHook exReqPost 3 "draft",
        Wagtail.PubEvent.setLive 3,
        Wagtail.PubEvent.afterHook exReqPost 3 "live" ]
      (Wagtail.bulkPublishView exDb true exReqPost).events :=
  C5_hooks_bracket_status_change exDb exReqPost (by decide) rfl
    exPage3 (by decide) (by decide) rfl

/-- C6: a user with admin access but without publish permission gets a
302 redirect from the bulk publish view, not the confirmation page,
and the database is untouched. -/
theorem C6_without_permission_redirects
    (db : List Wagtail.PageRecord) (req : Wagtail.ViewRequest)
    (hparent : Wagtail.pageExists db req.parentId = true) :
    Wagtail.statusCode (Wagtail.bulkPublishView db false req).response = 302
    ∧ Wagtail.isConfirmPage (Wagtail.bulkPublishView db false req).response = false
    ∧ (Wagtail.bulkPublishView db false req).db = db := by
  have hview : Wagtail.bulkPublishView db false req =
      ⟨.redirect .adminHome, db, [], []⟩ := by
    unfold Wagtail.bulkPublishView
    simp [hparent]
  rw [hview]
  exact ⟨rfl, rfl, rfl⟩

/-- Witness for C6 on the example data. -/
theorem C6_witness :
    Wagtail.statusCode (Wagtail.bulkPublishView exDb false exReqGet).response = 302
    ∧ Wagtail.isConfirmPage (Wagtail.bulkPublishView exDb false exReqGet).response = false
    ∧ (Wagtail.bulkPublishView exDb false exReqGet).db = exDb :=
  C6_without_permission_redirects exDb exReqGet (by decide)

/-- C7: a request naming a page id that exists nowhere in the database
yields a 404 response and leaves the database unchanged. -/
theorem C7_invalid_page_id_404_and_no_change
    (db : List Wagtail.PageRecord) (canPublish : Bool) (req : Wagtail.ViewRequest)
    (hparent : Wagtail.pageExists db req.parentId = false) :
    (Wagtail.bulkPublishView db canPublish req).response = Wagtail.Response.notFound
    ∧ Wagtail.statusCode (Wagtail.bulkPublishView db canPublish req).response = 404
    ∧ (Wagtail.bulkPublishView db canPublish req).db = db := by
  have hview : Wagtail.bulkPublishView db canPublish req =
      ⟨.notFound, db, [], []⟩ := by
    unfold Wagtail.bulkPublishView
    simp [hparent]
  rw [hview]
  exact ⟨rfl, rfl, rfl⟩

/-- Witness for C7 on the example data: page id 12345 exists nowhere. -/
theorem C7_witness :
    (Wagtail.bulkPublishView exDb true exReqBad).response = Wagtail.Response.notFound
    ∧ Wagtail.statusCode (Wagtail.bulkPublishView exDb true exReqBad).response = 404
    ∧ (Wagtail.bulkPublishView exDb true exReqBad).db = exDb :=
  C7_invalid_page_id_404_and_no_change exDb true exReqBad (by decide)

/-- C8: a GET of the bulk publish view for an existing page renders
the confirmation template with status 200, and the confirmation form
shows the `include_descendants` checkbox if and only if at least one
selected page has a descendant in the database. -/
theorem C8_get_renders_confirm_with_checkbox_iff_descendants
    (db : List Wagtail.PageRecord) (req : Wagtail.ViewRequest)
    (hparent : Wagtail.pageExists db req.parentId = true)
    (hmethod : req.method = Wagtail.Method.get) :
    (Wagtail.bulkPublishView db true req).response
      = Wagtail.Response.confirmPage Wagtail.confirmTemplate
          (db.any (Wagtail.isDescendantOfAny req.ids))
    ∧ Wagtail.statusCode (Wagtail.bulkPublishView db true req).response = 200
    ∧ (db.any (Wagtail.isDescendantOfAny req.ids) = true
        ↔ ∃ p ∈ db, ∃ s ∈ req.ids, s ∈ p.ancestors) := by
  have hview : Wagtail.bulkPublishView db true req =
      ⟨.confirmPage Wagtail.confirmTemplate (db.any (Wagtail.isDescendantOfAny req.ids)),
       db, [], []⟩ := by
    unfold Wagtail.bulkPublishView
    rw [hmethod]
    simp [hparent]
  refine ⟨by rw [hview], by rw [hview]; rfl, ?_⟩
  simp [List.any_eq_true, Wagtail.isDescendantOfAny, List.elem_iff]

/-- Witness for C8 on the example data: page 3 is selected and has the
descendant page 7, so the checkbox is shown. -/
theorem C8_witness :
    (Wagtail.bulkPublishView exDb true exReqGet).response
      = Wagtail.Response.confirmPage Wagtail.confirmTemplate true
    ∧ Wagtail.statusCode (Wagtail.bulkPublishView exDb true exReqGet).response = 200 :=
  ⟨((C8_get_renders_confirm_with_checkbox_iff_descendants exDb exReqGet
      (by decide) rfl).1).trans (by decide),
   (C8_get_renders_confirm_with_checkbox_iff_descendants exDb exReqGet
      (by decide) rfl).2.1⟩

/-- Example attribute assignment of a `TestBulkPublish` instance after
`setUp`, with arbitrary values; no attribute is named `self`. -/
def exAttrs : List (String × TestModule.PyVal) :=
  [ ("root_page", .noneV),
    ("child_pages", .noneV),
    ("pages_to_be_published", .noneV),
    ("pages_not_to_be_published", .noneV),
    ("url", .strV "/admin/pages/2/bulk_publish/?id=5"),
    ("redirect_url", .strV "/admin/pages/2/"),
    ("user", .noneV) ]

/-- C9: on every instance whose attributes do not include one named
`self` (as is the case after `TestBulkPublish.setUp`, which defines
only the attributes of `setUpAttrNames`), each of the six test method
bodies that read `self.self.url` stops with `AttributeError` for
`self`, having issued no HTTP request. -/
theorem C9_self_self_url_raises_attribute_error
    (attrs : List (String × TestModule.PyVal))
    (hself : TestModule.lookupAttr attrs "self" = none) :
    TestModule.runBody (.obj attrs) TestModule.body_test_publish_view
        = ([], some (.attributeError "self"))
    ∧ TestModule.runBody (.obj attrs) TestModule.body_test_publish_view_bad_permissions
        = ([], some (.attributeError "self"))
    ∧ TestModule.runBody (.obj attrs) TestModule.body_test_publish_view_post
        = ([], some (.attributeError "self"))
    ∧ TestModule.runBody (.obj attrs) TestModule.body_test_after_publish_page
        = ([], some (.attributeError "self"))
    ∧ TestModule.runBody (.obj attrs) TestModule.body_test_before_publish_page
        = ([], some (.attributeError "self"))
    ∧ TestModule.runBody (.obj attrs) TestModule.body_test_publish_descendants_view
        = ([], some (.attributeError "self"))
    ∧ TestModule.setUpAttrNames.contains "self" = false := by
  have heval : TestModule.evalExpr (.obj attrs) TestModule.selfSelfUrl
      = Except.error (.attributeError "self") := by
    simp [TestModule.selfSelfUrl, TestModule.evalExpr, TestModule.getAttr, hself]
  refine ⟨?_, ?_, ?_, ?_, ?_, ?_, by decide⟩ <;>
    simp [TestModule.runBody, heval,
      TestModule.body_test_publish_view,
      TestModule.body_test_publish_view_bad_permissions,
      TestModule.body_test_publish_view_post,
      TestModule.body_test_after_publish_page,
      TestModule.body_test_before_publish_page,
      TestModule.body_test_publish_descendants_view]

/-- Witness for C9 on the example instance attributes. -/
theorem C9_witness :
    TestModule.runBody (.obj exAttrs) TestModule.body_test_publish_view
        = ([], some (.attributeError "self"))
    ∧ TestModule.runBody (.obj exAttrs) TestModule.body_test_publish_view_bad_permissions
        = ([], some (.attributeError "self"))
    ∧ TestModule.runBody (.obj exAttrs) TestModule.body_test_publish_view_post
        = ([], some (.attributeError "self"))
    ∧ TestModule.runBody (.obj exAttrs) TestModule.body_test_after_publish_page
        = ([], some (.attributeError "self"))
    ∧ TestModule.runBody (.obj exAttrs) TestModule.body_test_before_publish_page
        = ([], some (.attributeError "self"))
    ∧ TestModule.runBody (.obj exAttrs) TestModule.body_test_publish_descendants_view
        = ([], some (.attributeError "self"))
    ∧ TestModule.setUpAttrNames.contains "self" = false :=
  C9_self_self_url_raises_attribute_error exAttrs rfl

/-- C10: the dev settings load succeeds whether the `.local` module is
absent or raises ImportError — in both cases the error is swallowed
and the values assigned in `dev.py` (DEBUG, SECRET_KEY, ALLOWED_HOSTS,
EMAIL_BACKEND, CSRF_TRUSTED_ORIGINS) stand unchanged — while any other
exception raised by `.local` propagates. -/
theorem C10_local_import_error_swallowed
    (base : DevSettings.Settings) (e : String) :
    DevSettings.loadDevSettings base DevSettings.LocalModule.absent
        = Except.ok (DevSettings.applyDevAssignments base)
    ∧ DevSettings.loadDevSettings base DevSettings.LocalModule.raisesImportError
        = Except.ok (DevSettings.applyDevAssignments base)
    ∧ DevSettings.loadDevSettings base (DevSettings.LocalModule.raisesOther e)
        = Except.error e
    ∧ (DevSettings.applyDevAssignments base).DEBUG = true
    ∧ (DevSettings.applyDevAssignments base).SECRET_KEY
        = "django-insecure-&%))u!78ouln2w+t$^14r55oa88k-wm0)7k)i!-0$+d5)40*k9"
    ∧ (DevSettings.applyDevAssignments base).ALLOWED_HOSTS = ["8000", "localhost"]
    ∧ (DevSettings.applyDevAssignments base).EMAIL_BACKEND
        = "django.core.mail.backends.console.EmailBackend"
    ∧ (DevSettings.applyDevAssignments base).CSRF_TRUSTED_ORIGINS
        = ["https://8000-sdivyanshu90-wagtail-zz7jqlv1uio.ws-us89b.gitpod.io"] :=
  ⟨rfl, rfl, rfl, rfl, rfl, rfl, rfl, rfl⟩
